import Mathlib

/-!
Verification development for the AutoServe autoscaling core.

The definitions below are a shallow embedding of the Python sources:
  * `src/apps/worker/tasks.py` — metric aggregation (`process_metrics`) and
    alert evaluation (`check_metric_alerts`);
  * `src/ml-controller/controller.py` — the scaling decision
    (`MLScalingController.predict_scaling_decision`), replica reads
    (`get_current_replicas`) and dispatch (`scale_deployment`).

Floats are modelled as rationals.  Values that the Python code obtains from
opaque external collaborators (the trained RandomForest model's raw output,
the Kubernetes API results, the wall clock) are passed in as explicit inputs.
-/

deriving instance DecidableEq for Except

namespace AutoServe

/-! ## Worker side: `src/apps/worker/tasks.py` -/

/-- Python exceptions that the worker-side aggregation can raise.
`numpy.max` on an empty array raises `ValueError`. -/
inductive PyError where
  | valueError (msg : String)
deriving DecidableEq

/-- `np.max(l)`: raises `ValueError` on an empty array, otherwise the maximum
(`tasks.py` lines 81 and 83). -/
def npMax (l : List ℚ) : Except PyError ℚ :=
  match l with
  | [] => Except.error (PyError.valueError
      "zero-size array to reduction operation maximum which has no identity")
  | x :: xs => Except.ok (xs.foldl max x)

/-- `np.mean(l)`: `NaN` on an empty array (modelled as `Option.none`),
otherwise the arithmetic mean (`tasks.py` lines 80 and 82). -/
def npMean (l : List ℚ) : Option ℚ :=
  match l with
  | [] => Option.none
  | x :: xs => some (((x :: xs).sum) / ((x :: xs).length : ℚ))

/-- The raw per-service batch handed to `process_metrics` (`metrics_data`):
lists of cpu/memory samples and request/error counts. -/
structure MetricsData where
  cpu_values : List ℚ
  memory_values : List ℚ
  request_counts : List ℕ
  error_counts : List ℕ
deriving DecidableEq

/-- The aggregated record built by `process_metrics` (`tasks.py` lines 77-86).
`avg_cpu`/`avg_memory` are `Option ℚ` because `np.mean` of an empty array is
`NaN`; `timestamp` is the wall-clock time `datetime.utcnow()` read during the
call, modelled as a numeric instant. -/
structure ProcessedMetrics where
  service_name : String
  timestamp : ℚ
  avg_cpu : Option ℚ
  max_cpu : ℚ
  avg_memory : Option ℚ
  max_memory : ℚ
  request_count : ℕ
  error_count : ℕ
deriving DecidableEq

/-- Externally visible effects of a worker task.  `process_metrics` enqueues a
`check_metric_alerts` Celery task with the processed record
(`tasks.py` line 92). -/
inductive WorkerEffect where
  | enqueueAlertCheck (service : String) (metrics : ProcessedMetrics)
deriving DecidableEq

/-- Embedding of `process_metrics` (`tasks.py` lines 70-97).  The fields are
computed in the order of the Python dict literal, so the first empty sample
list whose `np.max` is reached aborts the task with `ValueError`; on success
the task enqueues `check_metric_alerts.delay(service_name, processed_metrics)`.
`now` is the wall clock read for the `timestamp` field. -/
def process_metrics (service_name : String) (d : MetricsData) (now : ℚ) :
    Except PyError (ProcessedMetrics × List WorkerEffect) := do
  let avg_cpu := npMean d.cpu_values
  let max_cpu ← npMax d.cpu_values
  let avg_memory := npMean d.memory_values
  let max_memory ← npMax d.memory_values
  let processed : ProcessedMetrics :=
    { service_name := service_name
      timestamp := now
      avg_cpu := avg_cpu
      max_cpu := max_cpu
      avg_memory := avg_memory
      max_memory := max_memory
      request_count := d.request_counts.sum
      error_count := d.error_counts.sum }
  return (processed, [WorkerEffect.enqueueAlertCheck service_name processed])

/-- An alert event produced by `check_metric_alerts` (`tasks.py` lines
107-133).  The Python code formats `value` into the human-readable message
string; the triggering value is kept here in place of that formatted text. -/
structure Alert where
  kind : String
  severity : String
  value : ℚ
  service : String
deriving DecidableEq

/-- The summary fields that `check_metric_alerts` reads
(`metrics.get` of avg_cpu, avg_memory, request_count, error_count). -/
structure AlertMetrics where
  avg_cpu : ℚ
  avg_memory : ℚ
  request_count : ℕ
  error_count : ℕ
deriving DecidableEq

/-- Embedding of `check_metric_alerts` (`tasks.py` lines 100-147): three
independent threshold checks, each appending at most one alert. -/
def check_metric_alerts (service_name : String) (m : AlertMetrics) : List Alert :=
  let cpuAlerts : List Alert :=
    if m.avg_cpu > 80 then
      [{ kind := "cpu_high"
         severity := if m.avg_cpu > 90 then "high" else "medium"
         value := m.avg_cpu
         service := service_name }]
    else []
  let memAlerts : List Alert :=
    if m.avg_memory > 85 then
      [{ kind := "memory_high"
         severity := if m.avg_memory > 95 then "high" else "medium"
         value := m.avg_memory
         service := service_name }]
    else []
  let error_rate : ℚ :=
    if m.request_count > 0 then
      ((m.error_count : ℚ) / (m.request_count : ℚ)) * 100
    else 0
  let errAlerts : List Alert :=
    if error_rate > 5 then
      [{ kind := "error_rate_high"
         severity := if error_rate > 10 then "critical" else "high"
         value := error_rate
         service := service_name }]
    else []
  cpuAlerts ++ memAlerts ++ errAlerts

/-- The severity of the (unique) alert of a given kind in an alert list. -/
def severityOf (alerts : List Alert) (kind : String) : Option String :=
  (alerts.find? (fun a => a.kind = kind)).map Alert.severity

/-! ## Controller side: `src/ml-controller/controller.py` -/

/-- Controller configuration read once at start (`controller.py` lines 37-38):
`CONFIDENCE_THRESHOLD` (default 0.7) and `SCALING_COOLDOWN` (default 300s). -/
structure Config where
  confidence_threshold : ℚ
  scaling_cooldown : ℚ
deriving DecidableEq

/-- The default configuration values. -/
def defaultConfig : Config := { confidence_threshold := 7/10, scaling_cooldown := 300 }

/-- `int(round(x))` in Python/NumPy: round half to even, then truncate to an
integer (the rounded value is already integral, so truncation is identity).
Used on the model output at `controller.py` line 271. -/
def pyRound (q : ℚ) : ℤ :=
  let f : ℤ := q.num.fdiv (q.den : ℤ)
  let frac : ℚ := q - (f : ℚ)
  if frac < 1/2 then f
  else if frac > 1/2 then f + 1
  else if f % 2 = 0 then f else f + 1

/-- The opaque external predictor, as seen by `predict_scaling_decision`:
whether `'scaling_predictor'` is in `self.models` (line 245), the raw value
`model.predict(features_scaled)[0]` (line 271), and the value
`feature_stability` computed at line 276 (its exact value involves a square
root via `np.std`, so it is supplied as an input here; line 277 clamps it). -/
structure PredictorEnv where
  modelAvailable : Bool
  rawPrediction : ℚ
  featureStability : ℚ
deriving DecidableEq

/-- The Kubernetes collaborator as seen by one decision cycle: whether the
client was initialised (`self.k8s_apps_v1 is not None`), the outcome of
`read_namespaced_deployment(...).spec.replicas` (exception, missing field, or
a count), and the outcome of the read-and-patch performed by
`scale_deployment` (exception message or success). -/
structure OrchestratorEnv where
  k8sAvailable : Bool
  readReplicas : Except String (Option ℕ)
  patchResult : Except String Unit
deriving DecidableEq

/-- Embedding of `get_current_replicas` (`controller.py` lines 325-339):
returns 1 when the client is missing or the read raises; otherwise
`deployment.spec.replicas or 1`, i.e. 1 when the field is `None` or 0. -/
def get_current_replicas (orch : OrchestratorEnv) : ℕ :=
  if orch.k8sAvailable = false then 1
  else
    match orch.readReplicas with
    | Except.error _ => 1
    | Except.ok Option.none => 1
    | Except.ok (some r) => if r = 0 then 1 else r

/-- Status of a `scale_deployment` call (`controller.py` lines 341-383). -/
inductive ScaleStatus where
  | simulated
  | success
  | error
deriving DecidableEq

/-- The dict returned by `scale_deployment`; `message` carries the exception
text in the error case. -/
structure ScaleResult where
  service_name : String
  replicas : ℤ
  status : ScaleStatus
  message : String
deriving DecidableEq

/-- Embedding of `scale_deployment` (`controller.py` lines 341-383): with no
Kubernetes client it simulates; otherwise it reads and patches the
deployment, and any exception is caught and turned into an error-status
return value — the function never raises. -/
def scale_deployment (orch : OrchestratorEnv) (service_name : String)
    (replicas : ℤ) : ScaleResult :=
  if orch.k8sAvailable = false then
    { service_name := service_name
      replicas := replicas
      status := ScaleStatus.simulated
      message := "Kubernetes not available" }
  else
    match orch.patchResult with
    | Except.ok _ =>
        { service_name := service_name
          replicas := replicas
          status := ScaleStatus.success
          message := "Scaled " ++ service_name ++ " to " ++ toString replicas ++ " replicas" }
    | Except.error e =>
        { service_name := service_name
          replicas := replicas
          status := ScaleStatus.error
          message := e }

/-- The controller's mutable registries relevant to a decision:
`self.last_scaling_times` (a dict with `.get(name, 0)` reads, modelled as a
total map with default 0) plus the trace of `scale_deployment` calls made so
far (to record which actions were dispatched to the orchestrator). -/
structure ControllerState where
  last_scaling_times : String → ℚ
  scaleDispatches : List ScaleResult

/-- The fresh controller state: no service has ever been scaled. -/
def initialState : ControllerState :=
  { last_scaling_times := fun _ => 0, scaleDispatches := [] }

/-- The `action` field of a recommendation. -/
inductive Action where
  | scale_up
  | scale_down
  | none
deriving DecidableEq

/-- The prediction dict returned by `predict_scaling_decision`.  The
`timestamp`, `metrics` and `executed` keys are `Option` because the early
no-model return (lines 246-253) omits them. -/
structure Recommendation where
  service_name : String
  current_replicas : ℕ
  recommended_replicas : ℤ
  confidence : ℚ
  reason : String
  action : Action
  timestamp : Option ℚ
  metrics : Option (List (String × ℚ))
  executed : Option Bool
deriving DecidableEq

/-- Lines 271-272 of `controller.py`: the raw model output is rounded to an
integer and clamped to the range 1..10. -/
def clampedPrediction (pred : PredictorEnv) : ℤ :=
  max 1 (min 10 (pyRound pred.rawPrediction))

/-- Line 277 of `controller.py`: the heuristic feature-stability value is
clamped to the range 0.5 .. 0.95 to give the confidence. -/
def confidenceOf (pred : PredictorEnv) : ℚ :=
  min (95/100) (max (1/2) pred.featureStability)

/-- Lines 280-288 of `controller.py`: the action determined purely from the
predicted and current replica counts. -/
def rawAction (predicted : ℤ) (current : ℕ) : Action :=
  if predicted > (current : ℤ) then Action.scale_up
  else if predicted < (current : ℤ) then Action.scale_down
  else Action.none

/-- Lines 280-288 of `controller.py`: the reason string set together with the
action. -/
def rawReason (predicted : ℤ) (current : ℕ) : String :=
  if predicted > (current : ℤ) then
    "Predicted load increase requires " ++ toString predicted ++ " replicas"
  else if predicted < (current : ℤ) then
    "Predicted load decrease allows reduction to " ++ toString predicted ++ " replicas"
  else "Current scaling is optimal"

/-- Line 292 of `controller.py`: the cooldown test
`time.time() - last_scaling < self.scaling_cooldown`, with
`last_scaling = self.last_scaling_times.get(service_name, 0)`. -/
def cooldownActive (cfg : Config) (st : ControllerState) (service_name : String)
    (now : ℚ) : Prop :=
  now - st.last_scaling_times service_name < cfg.scaling_cooldown

instance (cfg : Config) (st : ControllerState) (service_name : String) (now : ℚ) :
    Decidable (cooldownActive cfg st service_name now) :=
  inferInstanceAs (Decidable (_ < _))

/-- Embedding of `MLScalingController.predict_scaling_decision`
(`controller.py` lines 235-319) for one call, with the external collaborators
supplied as inputs.  `now` stands for the `time.time()` readings made during
the call.  Returns the prediction dict together with the updated controller
state; the state changes (line 313 and the dispatch at line 312) happen
exactly when the execution gate at lines 308-310 passes, and the outcome of
the dispatched `scale_deployment` call is never inspected. -/
def predict_scaling_decision (cfg : Config) (st : ControllerState)
    (service_name : String) (current_metrics : List (String × ℚ))
    (pred : PredictorEnv) (orch : OrchestratorEnv) (now : ℚ) :
    Recommendation × ControllerState :=
  let current_replicas := get_current_replicas orch
  if pred.modelAvailable = false then
    ({ service_name := service_name
       current_replicas := current_replicas
       recommended_replicas := (current_replicas : ℤ)
       confidence := 0
       reason := "No ML model available"
       action := Action.none
       timestamp := Option.none
       metrics := Option.none
       executed := Option.none }, st)
  else
    let predicted_replicas : ℤ := clampedPrediction pred
    let confidence : ℚ := confidenceOf pred
    let action : Action :=
      if cooldownActive cfg st service_name now then Action.none
      else rawAction predicted_replicas current_replicas
    let reason : String :=
      if cooldownActive cfg st service_name now then "Scaling cooldown period active"
      else rawReason predicted_replicas current_replicas
    let prediction : Recommendation :=
      { service_name := service_name
        current_replicas := current_replicas
        recommended_replicas := predicted_replicas
        confidence := confidence
        reason := reason
        action := action
        timestamp := some now
        metrics := some current_metrics
        executed := Option.none }
    if action ≠ Action.none ∧ confidence ≥ cfg.confidence_threshold ∧
        predicted_replicas ≠ (current_replicas : ℤ) then
      ({ prediction with executed := some true },
       { st with
         last_scaling_times :=
           fun s => if s = service_name then now else st.last_scaling_times s
         scaleDispatches :=
           st.scaleDispatches ++ [scale_deployment orch service_name predicted_replicas] })
    else
      ({ prediction with executed := some false }, st)

/-! ## Views used to compare aggregation runs -/

/-- The aggregation fields of a processed-metrics record, with the
wall-clock `timestamp` field dropped. -/
def aggregatesOf (p : ProcessedMetrics) :
    String × Option ℚ × ℚ × Option ℚ × ℚ × ℕ × ℕ :=
  (p.service_name, p.avg_cpu, p.max_cpu, p.avg_memory, p.max_memory,
   p.request_count, p.error_count)

/-- A worker effect with the timestamp inside its payload dropped. -/
def stripEffect : WorkerEffect → String × (String × Option ℚ × ℚ × Option ℚ × ℚ × ℕ × ℕ)
  | WorkerEffect.enqueueAlertCheck s p => (s, aggregatesOf p)

/-- A successful `process_metrics` run with all timestamps dropped. -/
def stripRun (pe : ProcessedMetrics × List WorkerEffect) :
    (String × Option ℚ × ℚ × Option ℚ × ℚ × ℕ × ℕ) ×
      List (String × (String × Option ℚ × ℚ × Option ℚ × ℚ × ℕ × ℕ)) :=
  (aggregatesOf pe.1, pe.2.map stripEffect)

/-! ## Concrete inputs used by witnesses and counterexamples -/

/-- A predictor with a loaded model: raw model output 5, feature stability 2
(clamped to confidence 0.95). -/
def samplePredictor : PredictorEnv :=
  { modelAvailable := true, rawPrediction := 5, featureStability := 2 }

/-- A predictor environment in which no model is available. -/
def noModelPredictor : PredictorEnv :=
  { modelAvailable := false, rawPrediction := 0, featureStability := 0 }

/-- An orchestrator whose deployment currently has 2 replicas and whose
patches succeed. -/
def sampleOrch : OrchestratorEnv :=
  { k8sAvailable := true, readReplicas := Except.ok (some 2), patchResult := Except.ok () }

/-- An orchestrator whose deployment currently has 57 replicas. -/
def bigOrch : OrchestratorEnv :=
  { k8sAvailable := true, readReplicas := Except.ok (some 57), patchResult := Except.ok () }

/-- An orchestrator whose deployment has 2 replicas but whose patch calls
fail with an exception. -/
def failingOrch : OrchestratorEnv :=
  { k8sAvailable := true, readReplicas := Except.ok (some 2),
    patchResult := Except.error "connection refused" }

/-- A small non-empty metrics batch. -/
def sampleBatch : MetricsData :=
  { cpu_values := [50, 60], memory_values := [40],
    request_counts := [100], error_counts := [2] }

/-- The empty metrics batch. -/
def emptyBatch : MetricsData :=
  { cpu_values := [], memory_values := [], request_counts := [], error_counts := [] }

/-- The `ValueError` message raised by `np.max` on an empty array. -/
def emptyReductionMsg : String :=
  "zero-size array to reduction operation maximum which has no identity"

/-! ## Helper lemmas about the decision function -/

theorem rawAction_eq_none_iff (p : ℤ) (c : ℕ) :
    rawAction p c = Action.none ↔ p = (c : ℤ) := by
  unfold rawAction
  split_ifs with h1 h2
  · simp; omega
  · simp; omega
  · simp; omega

theorem predict_no_model (cfg : Config) (st : ControllerState) (name : String)
    (m : List (String × ℚ)) (pred : PredictorEnv) (orch : OrchestratorEnv) (now : ℚ)
    (hm : pred.modelAvailable = false) :
    predict_scaling_decision cfg st name m pred orch now =
      ({ service_name := name
         current_replicas := get_current_replicas orch
         recommended_replicas := (get_current_replicas orch : ℤ)
         confidence := 0
         reason := "No ML model available"
         action := Action.none
         timestamp := Option.none
         metrics := Option.none
         executed := Option.none }, st) := by
  simp only [predict_scaling_decision, hm, if_true]

theorem predict_action_model (cfg : Config) (st : ControllerState) (name : String)
    (m : List (String × ℚ)) (pred : PredictorEnv) (orch : OrchestratorEnv) (now : ℚ)
    (hm : pred.modelAvailable = true) :
    (predict_scaling_decision cfg st name m pred orch now).1.action =
      (if cooldownActive cfg st name now then Action.none
       else rawAction (clampedPrediction pred) (get_current_replicas orch)) := by
  simp only [predict_scaling_decision, hm, Bool.true_eq_false, if_false]
  by_cases hg : ((if cooldownActive cfg st name now then Action.none
       else rawAction (clampedPrediction pred) (get_current_replicas orch)) ≠ Action.none ∧
      confidenceOf pred ≥ cfg.confidence_threshold ∧
      clampedPrediction pred ≠ ((get_current_replicas orch : ℕ) : ℤ))
  · rw [if_pos hg]
  · rw [if_neg hg]

theorem predict_reason_model (cfg : Config) (st : ControllerState) (name : String)
    (m : List (String × ℚ)) (pred : PredictorEnv) (orch : OrchestratorEnv) (now : ℚ)
    (hm : pred.modelAvailable = true) :
    (predict_scaling_decision cfg st name m pred orch now).1.reason =
      (if cooldownActive cfg st name now then "Scaling cooldown period active"
       else rawReason (clampedPrediction pred) (get_current_replicas orch)) := by
  simp only [predict_scaling_decision, hm, Bool.true_eq_false, if_false]
  by_cases hg : ((if cooldownActive cfg st name now then Action.none
       else rawAction (clampedPrediction pred) (get_current_replicas orch)) ≠ Action.none ∧
      confidenceOf pred ≥ cfg.confidence_threshold ∧
      clampedPrediction pred ≠ ((get_current_replicas orch : ℕ) : ℤ))
  · rw [if_pos hg]
  · rw [if_neg hg]

theorem predict_confidence_model (cfg : Config) (st : ControllerState) (name : String)
    (m : List (String × ℚ)) (pred : PredictorEnv) (orch : OrchestratorEnv) (now : ℚ)
    (hm : pred.modelAvailable = true) :
    (predict_scaling_decision cfg st name m pred orch now).1.confidence =
      confidenceOf pred := by
  simp only [predict_scaling_decision, hm, Bool.true_eq_false, if_false]
  by_cases hg : ((if cooldownActive cfg st name now then Action.none
       else rawAction (clampedPrediction pred) (get_current_replicas orch)) ≠ Action.none ∧
      confidenceOf pred ≥ cfg.confidence_threshold ∧
      clampedPrediction pred ≠ ((get_current_replicas orch : ℕ) : ℤ))
  · rw [if_pos hg]
  · rw [if_neg hg]

theorem predict_recommended_model (cfg : Config) (st : ControllerState) (name : String)
    (m : List (String × ℚ)) (pred : PredictorEnv) (orch : OrchestratorEnv) (now : ℚ)
    (hm : pred.modelAvailable = true) :
    (predict_scaling_decision cfg st name m pred orch now).1.recommended_replicas =
      clampedPrediction pred := by
  simp only [predict_scaling_decision, hm, Bool.true_eq_false, if_false]
  by_cases hg : ((if cooldownActive cfg st name now then Action.none
       else rawAction (clampedPrediction pred) (get_current_replicas orch)) ≠ Action.none ∧
      confidenceOf pred ≥ cfg.confidence_threshold ∧
      clampedPrediction pred ≠ ((get_current_replicas orch : ℕ) : ℤ))
  · rw [if_pos hg]
  · rw [if_neg hg]

theorem predict_current_replicas (cfg : Config) (st : ControllerState) (name : String)
    (m : List (String × ℚ)) (pred : PredictorEnv) (orch : OrchestratorEnv) (now : ℚ) :
    (predict_scaling_decision cfg st name m pred orch now).1.current_replicas =
      get_current_replicas orch := by
  by_cases hm : pred.modelAvailable = false
  · rw [predict_no_model cfg st name m pred orch now hm]
  · simp only [Bool.not_eq_false] at hm
    simp only [predict_scaling_decision, hm, Bool.true_eq_false, if_false]
    by_cases hg : ((if cooldownActive cfg st name now then Action.none
         else rawAction (clampedPrediction pred) (get_current_replicas orch)) ≠ Action.none ∧
        confidenceOf pred ≥ cfg.confidence_threshold ∧
        clampedPrediction pred ≠ ((get_current_replicas orch : ℕ) : ℤ))
    · rw [if_pos hg]
    · rw [if_neg hg]

theorem predict_executed_true_iff (cfg : Config) (st : ControllerState) (name : String)
    (m : List (String × ℚ)) (pred : PredictorEnv) (orch : OrchestratorEnv) (now : ℚ)
    (hm : pred.modelAvailable = true) :
    ((predict_scaling_decision cfg st name m pred orch now).1.executed = some true ↔
      (¬ cooldownActive cfg st name now ∧
       confidenceOf pred ≥ cfg.confidence_threshold ∧
       clampedPrediction pred ≠ ((get_current_replicas orch : ℕ) : ℤ))) := by
  simp only [predict_scaling_decision, hm, Bool.true_eq_false, if_false]
  by_cases hg : ((if cooldownActive cfg st name now then Action.none
       else rawAction (clampedPrediction pred) (get_current_replicas orch)) ≠ Action.none ∧
      confidenceOf pred ≥ cfg.confidence_threshold ∧
      clampedPrediction pred ≠ ((get_current_replicas orch : ℕ) : ℤ))
  · rw [if_pos hg]
    simp only [true_iff]
    obtain ⟨hact, hconf, hne⟩ := hg
    refine ⟨?_, hconf, hne⟩
    intro hcd
    rw [if_pos hcd] at hact
    exact hact rfl
  · rw [if_neg hg]
    simp only [Option.some.injEq, Bool.false_eq_true, false_iff]
    intro ⟨hcd, hconf, hne⟩
    refine hg ⟨?_, hconf, hne⟩
    rw [if_neg hcd, Ne, rawAction_eq_none_iff]
    exact hne

theorem predict_executed_isSome (cfg : Config) (st : ControllerState) (name : String)
    (m : List (String × ℚ)) (pred : PredictorEnv) (orch : OrchestratorEnv) (now : ℚ)
    (hm : pred.modelAvailable = true) :
    (predict_scaling_decision cfg st name m pred orch now).1.executed = some true ∨
    (predict_scaling_decision cfg st name m pred orch now).1.executed = some false := by
  simp only [predict_scaling_decision, hm, Bool.true_eq_false, if_false]
  by_cases hg : ((if cooldownActive cfg st name now then Action.none
       else rawAction (clampedPrediction pred) (get_current_replicas orch)) ≠ Action.none ∧
      confidenceOf pred ≥ cfg.confidence_threshold ∧
      clampedPrediction pred ≠ ((get_current_replicas orch : ℕ) : ℤ))
  · rw [if_pos hg]; left; rfl
  · rw [if_neg hg]; right; rfl

theorem predict_state_of_executed (cfg : Config) (st : ControllerState) (name : String)
    (m : List (String × ℚ)) (pred : PredictorEnv) (orch : OrchestratorEnv) (now : ℚ)
    (hx : (predict_scaling_decision cfg st name m pred orch now).1.executed = some true) :
    (predict_scaling_decision cfg st name m pred orch now).2 =
      { last_scaling_times := fun s => if s = name then now else st.last_scaling_times s
        scaleDispatches :=
          st.scaleDispatches ++ [scale_deployment orch name (clampedPrediction pred)] } := by
  by_cases hm : pred.modelAvailable = false
  · rw [predict_no_model cfg st name m pred orch now hm] at hx
    simp at hx
  · simp only [Bool.not_eq_false] at hm
    simp only [predict_scaling_decision, hm, Bool.true_eq_false, if_false] at hx ⊢
    by_cases hg : ((if cooldownActive cfg st name now then Action.none
         else rawAction (clampedPrediction pred) (get_current_replicas orch)) ≠ Action.none ∧
        confidenceOf pred ≥ cfg.confidence_threshold ∧
        clampedPrediction pred ≠ ((get_current_replicas orch : ℕ) : ℤ))
    · rw [if_pos hg]
    · rw [if_neg hg] at hx
      simp at hx

theorem predict_state_of_not_executed (cfg : Config) (st : ControllerState) (name : String)
    (m : List (String × ℚ)) (pred : PredictorEnv) (orch : OrchestratorEnv) (now : ℚ)
    (hx : (predict_scaling_decision cfg st name m pred orch now).1.executed ≠ some true) :
    (predict_scaling_decision cfg st name m pred orch now).2 = st := by
  by_cases hm : pred.modelAvailable = false
  · rw [predict_no_model cfg st name m pred orch now hm]
  · simp only [Bool.not_eq_false] at hm
    simp only [predict_scaling_decision, hm, Bool.true_eq_false, if_false] at hx ⊢
    by_cases hg : ((if cooldownActive cfg st name now then Action.none
         else rawAction (clampedPrediction pred) (get_current_replicas orch)) ≠ Action.none ∧
        confidenceOf pred ≥ cfg.confidence_threshold ∧
        clampedPrediction pred ≠ ((get_current_replicas orch : ℕ) : ℤ))
    · rw [if_pos hg] at hx
      simp at hx
    · rw [if_neg hg]

theorem predict_fst_eq_of_read_eq (cfg : Config) (st : ControllerState) (name : String)
    (m : List (String × ℚ)) (pred : PredictorEnv) (o1 o2 : OrchestratorEnv) (now : ℚ)
    (h : get_current_replicas o1 = get_current_replicas o2) :
    (predict_scaling_decision cfg st name m pred o1 now).1 =
      (predict_scaling_decision cfg st name m pred o2 now).1 := by
  by_cases hm : pred.modelAvailable = false
  · rw [predict_no_model cfg st name m pred o1 now hm,
        predict_no_model cfg st name m pred o2 now hm]
    rw [h]
  · simp only [Bool.not_eq_false] at hm
    simp only [predict_scaling_decision, hm, Bool.true_eq_false, if_false]
    rw [h]
    by_cases hg : ((if cooldownActive cfg st name now then Action.none
         else rawAction (clampedPrediction pred) (get_current_replicas o2)) ≠ Action.none ∧
        confidenceOf pred ≥ cfg.confidence_threshold ∧
        clampedPrediction pred ≠ ((get_current_replicas o2 : ℕ) : ℤ))
    · rw [if_pos hg, if_pos hg]
    · rw [if_neg hg, if_neg hg]

/-! ## Claim theorems -/

/-- Claim C1: for every service, summary and time, the decision dispatches and
marks `executed = true` iff the determined action is not `none`, the confidence
is at least the configured threshold, the clamped predicted replica count
differs from the current one, and the cooldown gate passed; in particular
`executed = true` implies `action ≠ none` and
`confidence ≥ confidence_threshold`. -/
theorem execution_gate_iff (cfg : Config) (st : ControllerState) (name : String)
    (m : List (String × ℚ)) (pred : PredictorEnv) (orch : OrchestratorEnv) (now : ℚ)
    (hm : pred.modelAvailable = true) :
    ((predict_scaling_decision cfg st name m pred orch now).1.executed = some true ↔
      ((predict_scaling_decision cfg st name m pred orch now).1.action ≠ Action.none ∧
       (predict_scaling_decision cfg st name m pred orch now).1.confidence ≥
         cfg.confidence_threshold ∧
       (predict_scaling_decision cfg st name m pred orch now).1.recommended_replicas ≠
         ((predict_scaling_decision cfg st name m pred orch now).1.current_replicas : ℤ) ∧
       now - st.last_scaling_times name ≥ cfg.scaling_cooldown)) ∧
    ((predict_scaling_decision cfg st name m pred orch now).1.executed = some true →
      (predict_scaling_decision cfg st name m pred orch now).1.action ≠ Action.none ∧
      (predict_scaling_decision cfg st name m pred orch now).1.confidence ≥
        cfg.confidence_threshold) := by
  rw [predict_action_model cfg st name m pred orch now hm,
      predict_confidence_model cfg st name m pred orch now hm,
      predict_recommended_model cfg st name m pred orch now hm,
      predict_current_replicas cfg st name m pred orch now,
      predict_executed_true_iff cfg st name m pred orch now hm]
  constructor
  · constructor
    · rintro ⟨hcd, hconf, hne⟩
      refine ⟨?_, hconf, hne, ?_⟩
      · rw [if_neg hcd, Ne, rawAction_eq_none_iff]
        exact hne
      · exact not_lt.mp hcd
    · rintro ⟨hact, hconf, hne, hcd⟩
      exact ⟨not_lt.mpr hcd, hconf, hne⟩
  · rintro ⟨hcd, hconf, hne⟩
    refine ⟨?_, hconf⟩
    rw [if_neg hcd, Ne, rawAction_eq_none_iff]
    exact hne

/-- Claim C2: whenever the cooldown is still active
(`now - last_scaling_time < cooldown_window`), the returned recommendation has
`executed = false`, the action forced to `none` and the cooldown reason,
whatever the confidence and predicted replica count are. -/
theorem cooldown_blocks_execution (cfg : Config) (st : ControllerState) (name : String)
    (m : List (String × ℚ)) (pred : PredictorEnv) (orch : OrchestratorEnv) (now : ℚ)
    (hm : pred.modelAvailable = true)
    (hcd : now - st.last_scaling_times name < cfg.scaling_cooldown) :
    (predict_scaling_decision cfg st name m pred orch now).1.executed = some false ∧
    (predict_scaling_decision cfg st name m pred orch now).1.action = Action.none ∧
    (predict_scaling_decision cfg st name m pred orch now).1.reason =
      "Scaling cooldown period active" := by
  have hcd' : cooldownActive cfg st name now := hcd
  refine ⟨?_, ?_, ?_⟩
  · rcases predict_executed_isSome cfg st name m pred orch now hm with h | h
    · rw [predict_executed_true_iff cfg st name m pred orch now hm] at h
      exact absurd hcd' h.1
    · exact h
  · rw [predict_action_model cfg st name m pred orch now hm, if_pos hcd']
  · rw [predict_reason_model cfg st name m pred orch now hm, if_pos hcd']

/-- Claim C5 (amended): whenever a model is available, the recommended replica
count is the rounded raw prediction clamped into [1, 10], so it always lies in
those bounds regardless of the raw predictor output.  (The no-model early
return instead copies `current_replicas`, which is not clamped — see the
counterexample.) -/
theorem recommended_replicas_clamped (cfg : Config) (st : ControllerState) (name : String)
    (m : List (String × ℚ)) (pred : PredictorEnv) (orch : OrchestratorEnv) (now : ℚ)
    (hm : pred.modelAvailable = true) :
    1 ≤ (predict_scaling_decision cfg st name m pred orch now).1.recommended_replicas ∧
    (predict_scaling_decision cfg st name m pred orch now).1.recommended_replicas ≤ 10 := by
  rw [predict_recommended_model cfg st name m pred orch now hm]
  unfold clampedPrediction
  exact ⟨le_max_left _ _, max_le (by norm_num) (min_le_left _ _)⟩

/-- Claim C5 (counterexample): on the no-model path with a deployment
currently at 57 replicas, the returned `recommended_replicas` is 57, outside
the claimed [1, 10] bounds. -/
theorem no_model_replicas_unclamped :
    (predict_scaling_decision defaultConfig initialState "api" [] noModelPredictor
        bigOrch 0).1.recommended_replicas = 57 ∧
    ¬(1 ≤ (predict_scaling_decision defaultConfig initialState "api" [] noModelPredictor
          bigOrch 0).1.recommended_replicas ∧
      (predict_scaling_decision defaultConfig initialState "api" [] noModelPredictor
          bigOrch 0).1.recommended_replicas ≤ 10) := by
  rw [predict_no_model defaultConfig initialState "api" [] noModelPredictor bigOrch 0 rfl]
  norm_num [get_current_replicas, bigOrch]

/-- Claim C6: two decision calls for the same service run back to back with
identical inputs (and a positive cooldown window) yield `executed = true` at
most once: a successful first execution stamps `last_scaling_time`, so the
second call is blocked by the cooldown gate. -/
theorem decide_twice_at_most_one_execution (cfg : Config) (st : ControllerState)
    (name : String) (m : List (String × ℚ)) (pred : PredictorEnv)
    (orch : OrchestratorEnv) (now : ℚ) (hcd : 0 < cfg.scaling_cooldown) :
    ¬((predict_scaling_decision cfg st name m pred orch now).1.executed = some true ∧
      (predict_scaling_decision cfg
          (predict_scaling_decision cfg st name m pred orch now).2
          name m pred orch now).1.executed = some true) := by
  rintro ⟨h1, h2⟩
  by_cases hm : pred.modelAvailable = false
  · rw [predict_no_model cfg st name m pred orch now hm] at h1
    simp at h1
  · simp only [Bool.not_eq_false] at hm
    have hst := predict_state_of_executed cfg st name m pred orch now h1
    rw [predict_executed_true_iff cfg _ name m pred orch now hm] at h2
    apply h2.1
    show now - (predict_scaling_decision cfg st name m pred orch now).2.last_scaling_times
        name < cfg.scaling_cooldown
    rw [hst]
    show now - (if name = name then now else st.last_scaling_times name) <
      cfg.scaling_cooldown
    rw [if_pos rfl]
    simpa using hcd

/-- Claim C7 (amended): when no model is loaded, the returned recommendation
has `action = none`, `confidence = 0`, the reason "No ML model available",
`recommended_replicas` equal to `current_replicas`, and the controller state
unchanged; the `executed` key is omitted from this early return (it is never
`true`, but it is not set to `false` either). -/
theorem no_model_recommendation (cfg : Config) (st : ControllerState) (name : String)
    (m : List (String × ℚ)) (pred : PredictorEnv) (orch : OrchestratorEnv) (now : ℚ)
    (hm : pred.modelAvailable = false) :
    (predict_scaling_decision cfg st name m pred orch now).1.action = Action.none ∧
    (predict_scaling_decision cfg st name m pred orch now).1.confidence = 0 ∧
    (predict_scaling_decision cfg st name m pred orch now).1.reason =
      "No ML model available" ∧
    (predict_scaling_decision cfg st name m pred orch now).1.executed = Option.none ∧
    (predict_scaling_decision cfg st name m pred orch now).1.recommended_replicas =
      ((predict_scaling_decision cfg st name m pred orch now).1.current_replicas : ℤ) ∧
    (predict_scaling_decision cfg st name m pred orch now).2 = st := by
  rw [predict_no_model cfg st name m pred orch now hm]
  exact ⟨rfl, rfl, rfl, rfl, rfl, rfl⟩

/-- Claim C7 (counterexample): on the no-model path the recommendation dict
has no `executed` key at all, so `executed` is not `false` as claimed (it is
absent). -/
theorem no_model_executed_absent :
    (predict_scaling_decision defaultConfig initialState "api" [] noModelPredictor
        sampleOrch 0).1.action = Action.none ∧
    (predict_scaling_decision defaultConfig initialState "api" [] noModelPredictor
        sampleOrch 0).1.confidence = 0 ∧
    (predict_scaling_decision defaultConfig initialState "api" [] noModelPredictor
        sampleOrch 0).1.reason = "No ML model available" ∧
    (predict_scaling_decision defaultConfig initialState "api" [] noModelPredictor
        sampleOrch 0).1.executed ≠ some false := by
  rw [predict_no_model defaultConfig initialState "api" [] noModelPredictor sampleOrch 0 rfl]
  refine ⟨rfl, rfl, rfl, by simp⟩

/-- Claim C10: whenever a model is loaded, the confidence attached to the
recommendation lies in [0.5, 0.95]; in particular it never reaches 1, and any
threshold at most 0.5 is always met. -/
theorem confidence_clamped (cfg : Config) (st : ControllerState) (name : String)
    (m : List (String × ℚ)) (pred : PredictorEnv) (orch : OrchestratorEnv) (now : ℚ)
    (hm : pred.modelAvailable = true) :
    ((1/2 : ℚ) ≤ (predict_scaling_decision cfg st name m pred orch now).1.confidence ∧
     (predict_scaling_decision cfg st name m pred orch now).1.confidence ≤ 95/100 ∧
     (predict_scaling_decision cfg st name m pred orch now).1.confidence < 1) ∧
    (cfg.confidence_threshold ≤ 1/2 →
      (predict_scaling_decision cfg st name m pred orch now).1.confidence ≥
        cfg.confidence_threshold) := by
  rw [predict_confidence_model cfg st name m pred orch now hm]
  unfold confidenceOf
  constructor
  · exact ⟨le_min (by norm_num) (le_max_left _ _), min_le_left _ _,
      lt_of_le_of_lt (min_le_left _ _) (by norm_num)⟩
  · intro h
    exact le_trans h (le_min (by norm_num) (le_max_left _ _))

/-- The cpu row of the alert table as the code implements it. -/
theorem cpu_severity_eq (service : String) (m : AlertMetrics) :
    severityOf (check_metric_alerts service m) "cpu_high" =
      (if m.avg_cpu > 90 then some "high"
       else if m.avg_cpu > 80 then some "medium" else Option.none) := by
  unfold check_metric_alerts severityOf
  dsimp only
  split_ifs <;> simp [List.find?] <;> linarith

/-- The memory row of the alert table as the code implements it. -/
theorem memory_severity_eq (service : String) (m : AlertMetrics) :
    severityOf (check_metric_alerts service m) "memory_high" =
      (if m.avg_memory > 95 then some "high"
       else if m.avg_memory > 85 then some "medium" else Option.none) := by
  unfold check_metric_alerts severityOf
  dsimp only
  split_ifs <;> simp [List.find?] <;> linarith

/-- The error-rate row of the alert table as the code implements it. -/
theorem error_rate_severity_eq (service : String) (m : AlertMetrics) :
    severityOf (check_metric_alerts service m) "error_rate_high" =
      (if (if m.request_count > 0 then ((m.error_count : ℚ) / (m.request_count : ℚ)) * 100
           else 0) > 10 then some "critical"
       else if (if m.request_count > 0 then ((m.error_count : ℚ) / (m.request_count : ℚ)) * 100
           else 0) > 5 then some "high" else Option.none) := by
  unfold check_metric_alerts severityOf
  dsimp only
  split_ifs <;> simp [List.find?] <;> linarith

/-- Claim C4 (amended): the alert severities follow the thresholds with all
bounds strict, except that `avg_cpu > 90` yields severity "high", not
"critical": no cpu alert at or below 80, `cpu_high`/medium on (80, 90],
`cpu_high`/high above 90; no memory alert at or below 85, `memory_high`/medium
on (85, 95], `memory_high`/high above 95; with
`error_rate = error_count / request_count * 100` (0 when there are no
requests), no error alert at or below 5, `error_rate_high`/high on (5, 10],
`error_rate_high`/critical above 10. -/
theorem alert_threshold_table (service : String) (m : AlertMetrics) :
    severityOf (check_metric_alerts service m) "cpu_high" =
      (if m.avg_cpu > 90 then some "high"
       else if m.avg_cpu > 80 then some "medium" else Option.none) ∧
    severityOf (check_metric_alerts service m) "memory_high" =
      (if m.avg_memory > 95 then some "high"
       else if m.avg_memory > 85 then some "medium" else Option.none) ∧
    severityOf (check_metric_alerts service m) "error_rate_high" =
      (if (if m.request_count > 0 then ((m.error_count : ℚ) / (m.request_count : ℚ)) * 100
           else 0) > 10 then some "critical"
       else if (if m.request_count > 0 then ((m.error_count : ℚ) / (m.request_count : ℚ)) * 100
           else 0) > 5 then some "high" else Option.none) :=
  ⟨cpu_severity_eq service m, memory_severity_eq service m, error_rate_severity_eq service m⟩

/-- Claim C4 (counterexample): at `avg_cpu = 95 > 90` the code raises the cpu
alert with severity "high", not the claimed "critical". -/
theorem cpu_above_90_not_critical :
    check_metric_alerts "api"
        { avg_cpu := 95, avg_memory := 0, request_count := 0, error_count := 0 } =
      [{ kind := "cpu_high", severity := "high", value := 95, service := "api" }] ∧
    "high" ≠ "critical" := by
  constructor
  · norm_num [check_metric_alerts]
  · simp

/-- Claim C3 (amended): the recommendation (including `executed` and the
reason) is unaffected by whether the orchestrator patch succeeds or fails —
`scale_deployment` swallows the exception into a status value that the
decision path never inspects — and `last_scaling_time` is stamped and the
dispatch recorded exactly when `executed = true`, regardless of the dispatch
outcome; when nothing was dispatched the state is unchanged. -/
theorem dispatch_failure_ignored (cfg : Config) (st : ControllerState) (name : String)
    (m : List (String × ℚ)) (pred : PredictorEnv) (orch : OrchestratorEnv)
    (p1 p2 : Except String Unit) (now : ℚ) :
    ((predict_scaling_decision cfg st name m pred { orch with patchResult := p1 } now).1 =
     (predict_scaling_decision cfg st name m pred { orch with patchResult := p2 } now).1) ∧
    ((predict_scaling_decision cfg st name m pred orch now).1.executed = some true →
      (predict_scaling_decision cfg st name m pred orch now).2.last_scaling_times name =
        now ∧
      (predict_scaling_decision cfg st name m pred orch now).2.scaleDispatches =
        st.scaleDispatches ++ [scale_deployment orch name (clampedPrediction pred)]) ∧
    ((predict_scaling_decision cfg st name m pred orch now).1.executed ≠ some true →
      (predict_scaling_decision cfg st name m pred orch now).2 = st) := by
  refine ⟨predict_fst_eq_of_read_eq cfg st name m pred _ _ now rfl, ?_, ?_⟩
  · intro hx
    rw [predict_state_of_executed cfg st name m pred orch now hx]
    constructor
    · show (if name = name then now else st.last_scaling_times name) = now
      rw [if_pos rfl]
    · rfl
  · exact predict_state_of_not_executed cfg st name m pred orch now

/-- Claim C3 (counterexample): with the orchestrator patch failing
("connection refused"), the decision still returns `executed = true` with the
ordinary scale-up reason (no error text), stamps `last_scaling_time`, and the
recorded dispatch carries the error status that nobody reads. -/
theorem failed_dispatch_still_executed :
    (predict_scaling_decision defaultConfig initialState "api" [] samplePredictor
        failingOrch 1000).1.executed = some true ∧
    (predict_scaling_decision defaultConfig initialState "api" [] samplePredictor
        failingOrch 1000).1.reason = "Predicted load increase requires 5 replicas" ∧
    (predict_scaling_decision defaultConfig initialState "api" [] samplePredictor
        failingOrch 1000).2.last_scaling_times "api" = 1000 ∧
    (predict_scaling_decision defaultConfig initialState "api" [] samplePredictor
        failingOrch 1000).2.scaleDispatches =
      [{ service_name := "api", replicas := 5, status := ScaleStatus.error,
         message := "connection refused" }] := by
  norm_num [predict_scaling_decision, get_current_replicas, scale_deployment,
    defaultConfig, initialState, samplePredictor, failingOrch, pyRound, Int.fdiv,
    clampedPrediction, confidenceOf, cooldownActive, rawAction, rawReason]
  rw [if_neg (by simp)]
  exact ⟨rfl, rfl, by simp, rfl⟩

/-- Claim C8 (amended): aggregating a batch whose cpu sample list is empty
fails with numpy's `ValueError` from `np.max` on a zero-size array (after
`np.mean` silently yields NaN); there is no distinguished
`InsufficientDataError`, and the task's handler re-raises the exception. -/
theorem empty_samples_raise_value_error (service : String) (d : MetricsData) (now : ℚ)
    (h : d.cpu_values = []) :
    process_metrics service d now =
      Except.error (PyError.valueError emptyReductionMsg) := by
  simp [process_metrics, npMax, npMean, h, Except.bind, Bind.bind, emptyReductionMsg]

/-- Claim C8 (counterexample): on the empty batch the aggregation raises a
plain `ValueError` (numpy's empty-reduction error), not a distinguished
`InsufficientDataError` skip signal. -/
theorem empty_batch_value_error :
    process_metrics "api" emptyBatch 0 =
      Except.error (PyError.valueError
        "zero-size array to reduction operation maximum which has no identity") := by
  norm_num [process_metrics, npMax, npMean, emptyBatch, Except.bind, Bind.bind]

/-- Claim C9 (amended): the aggregation fields of `process_metrics` are a pure
function of the service name and sample batch — two runs at different times
agree on everything except the wall-clock `timestamp` — but the task is not
side-effect-free: every successful run enqueues exactly one
`check_metric_alerts` task. -/
theorem aggregation_pure_up_to_timestamp (service : String) (d : MetricsData)
    (t1 t2 : ℚ) :
    (process_metrics service d t1).map stripRun =
      (process_metrics service d t2).map stripRun ∧
    (process_metrics service d t1).map (fun pe => pe.2.map stripEffect) =
      (process_metrics service d t1).map (fun pe => [(service, aggregatesOf pe.1)]) := by
  cases hc : d.cpu_values <;> cases hm2 : d.memory_values <;>
    simp [process_metrics, npMax, npMean, hc, hm2, Except.bind, Bind.bind,
      Pure.pure, Except.pure, stripRun, stripEffect, aggregatesOf, Except.map]

/-- Claim C9 (counterexample): two runs of the aggregation on the same service
and the same batch do not produce identical results — the embedded wall-clock
timestamp (and the payload of the enqueued alert-check task) differ. -/
theorem aggregation_not_time_invariant :
    process_metrics "api" sampleBatch 0 ≠ process_metrics "api" sampleBatch 1 := by
  norm_num [process_metrics, npMax, npMean, sampleBatch, Except.bind, Bind.bind,
    Pure.pure, Except.pure]

/-! ## Witnesses: concrete instances of the hypothesis-bearing theorems -/

/-- Witness for `execution_gate_iff` at a concrete input. -/
theorem execution_gate_iff_witness :
    samplePredictor.modelAvailable = true ∧
    (((predict_scaling_decision defaultConfig initialState "api" [] samplePredictor
          sampleOrch 1000).1.executed = some true ↔
       ((predict_scaling_decision defaultConfig initialState "api" [] samplePredictor
            sampleOrch 1000).1.action ≠ Action.none ∧
        (predict_scaling_decision defaultConfig initialState "api" [] samplePredictor
            sampleOrch 1000).1.confidence ≥ defaultConfig.confidence_threshold ∧
        (predict_scaling_decision defaultConfig initialState "api" [] samplePredictor
            sampleOrch 1000).1.recommended_replicas ≠
          ((predict_scaling_decision defaultConfig initialState "api" [] samplePredictor
              sampleOrch 1000).1.current_replicas : ℤ) ∧
        (1000 : ℚ) - initialState.last_scaling_times "api" ≥
          defaultConfig.scaling_cooldown)) ∧
     ((predict_scaling_decision defaultConfig initialState "api" [] samplePredictor
          sampleOrch 1000).1.executed = some true →
       (predict_scaling_decision defaultConfig initialState "api" [] samplePredictor
           sampleOrch 1000).1.action ≠ Action.none ∧
       (predict_scaling_decision defaultConfig initialState "api" [] samplePredictor
           sampleOrch 1000).1.confidence ≥ defaultConfig.confidence_threshold)) :=
  ⟨rfl, execution_gate_iff defaultConfig initialState "api" [] samplePredictor
    sampleOrch 1000 rfl⟩

/-- Witness for `cooldown_blocks_execution` at a concrete input. -/
theorem cooldown_blocks_execution_witness :
    samplePredictor.modelAvailable = true ∧
    ((100 : ℚ) - initialState.last_scaling_times "api" <
      defaultConfig.scaling_cooldown) ∧
    ((predict_scaling_decision defaultConfig initialState "api" [] samplePredictor
        sampleOrch 100).1.executed = some false ∧
     (predict_scaling_decision defaultConfig initialState "api" [] samplePredictor
        sampleOrch 100).1.action = Action.none ∧
     (predict_scaling_decision defaultConfig initialState "api" [] samplePredictor
        sampleOrch 100).1.reason = "Scaling cooldown period active") :=
  ⟨rfl, by norm_num [initialState, defaultConfig],
   cooldown_blocks_execution defaultConfig initialState "api" [] samplePredictor
     sampleOrch 100 rfl (by norm_num [initialState, defaultConfig])⟩

/-- Witness for `recommended_replicas_clamped` at a concrete input with raw
prediction 57. -/
theorem recommended_replicas_clamped_witness :
    ({ modelAvailable := true, rawPrediction := 57, featureStability := 2 } :
      PredictorEnv).modelAvailable = true ∧
    (1 ≤ (predict_scaling_decision defaultConfig initialState "api" []
        { modelAvailable := true, rawPrediction := 57, featureStability := 2 }
        sampleOrch 1000).1.recommended_replicas ∧
     (predict_scaling_decision defaultConfig initialState "api" []
        { modelAvailable := true, rawPrediction := 57, featureStability := 2 }
        sampleOrch 1000).1.recommended_replicas ≤ 10) :=
  ⟨rfl, recommended_replicas_clamped defaultConfig initialState "api" []
    { modelAvailable := true, rawPrediction := 57, featureStability := 2 }
    sampleOrch 1000 rfl⟩

/-- Witness for `decide_twice_at_most_one_execution` at a concrete input. -/
theorem decide_twice_at_most_one_execution_witness :
    (0 : ℚ) < defaultConfig.scaling_cooldown ∧
    ¬((predict_scaling_decision defaultConfig initialState "api" [] samplePredictor
          sampleOrch 1000).1.executed = some true ∧
      (predict_scaling_decision defaultConfig
          (predict_scaling_decision defaultConfig initialState "api" [] samplePredictor
            sampleOrch 1000).2
          "api" [] samplePredictor sampleOrch 1000).1.executed = some true) :=
  ⟨by norm_num [defaultConfig],
   decide_twice_at_most_one_execution defaultConfig initialState "api" []
     samplePredictor sampleOrch 1000 (by norm_num [defaultConfig])⟩

/-- Witness for `no_model_recommendation` at a concrete input. -/
theorem no_model_recommendation_witness :
    noModelPredictor.modelAvailable = false ∧
    ((predict_scaling_decision defaultConfig initialState "api" [] noModelPredictor
        bigOrch 5).1.action = Action.none ∧
     (predict_scaling_decision defaultConfig initialState "api" [] noModelPredictor
        bigOrch 5).1.confidence = 0 ∧
     (predict_scaling_decision defaultConfig initialState "api" [] noModelPredictor
        bigOrch 5).1.reason = "No ML model available" ∧
     (predict_scaling_decision defaultConfig initialState "api" [] noModelPredictor
        bigOrch 5).1.executed = Option.none ∧
     (predict_scaling_decision defaultConfig initialState "api" [] noModelPredictor
        bigOrch 5).1.recommended_replicas =
       ((predict_scaling_decision defaultConfig initialState "api" [] noModelPredictor
           bigOrch 5).1.current_replicas : ℤ) ∧
     (predict_scaling_decision defaultConfig initialState "api" [] noModelPredictor
        bigOrch 5).2 = initialState) :=
  ⟨rfl, no_model_recommendation defaultConfig initialState "api" [] noModelPredictor
    bigOrch 5 rfl⟩

/-- Witness for `confidence_clamped` at a concrete input. -/
theorem confidence_clamped_witness :
    samplePredictor.modelAvailable = true ∧
    (((1/2 : ℚ) ≤ (predict_scaling_decision defaultConfig initialState "api" []
          samplePredictor sampleOrch 1000).1.confidence ∧
      (predict_scaling_decision defaultConfig initialState "api" [] samplePredictor
          sampleOrch 1000).1.confidence ≤ 95/100 ∧
      (predict_scaling_decision defaultConfig initialState "api" [] samplePredictor
          sampleOrch 1000).1.confidence < 1) ∧
     (defaultConfig.confidence_threshold ≤ 1/2 →
       (predict_scaling_decision defaultConfig initialState "api" [] samplePredictor
           sampleOrch 1000).1.confidence ≥ defaultConfig.confidence_threshold)) :=
  ⟨rfl, confidence_clamped defaultConfig initialState "api" [] samplePredictor
    sampleOrch 1000 rfl⟩

/-- Witness for `dispatch_failure_ignored` at a concrete input. -/
theorem dispatch_failure_ignored_witness :
    ((predict_scaling_decision defaultConfig initialState "api" [] samplePredictor
        { sampleOrch with patchResult := Except.ok () } 1000).1 =
     (predict_scaling_decision defaultConfig initialState "api" [] samplePredictor
        { sampleOrch with patchResult := Except.error "boom" } 1000).1) ∧
    ((predict_scaling_decision defaultConfig initialState "api" [] samplePredictor
        sampleOrch 1000).1.executed = some true →
      (predict_scaling_decision defaultConfig initialState "api" [] samplePredictor
          sampleOrch 1000).2.last_scaling_times "api" = 1000 ∧
      (predict_scaling_decision defaultConfig initialState "api" [] samplePredictor
          sampleOrch 1000).2.scaleDispatches =
        initialState.scaleDispatches ++
          [scale_deployment sampleOrch "api" (clampedPrediction samplePredictor)]) ∧
    ((predict_scaling_decision defaultConfig initialState "api" [] samplePredictor
        sampleOrch 1000).1.executed ≠ some true →
      (predict_scaling_decision defaultConfig initialState "api" [] samplePredictor
          sampleOrch 1000).2 = initialState) :=
  dispatch_failure_ignored defaultConfig initialState "api" [] samplePredictor
    sampleOrch (Except.ok ()) (Except.error "boom") 1000

/-- Witness for `alert_threshold_table` at a concrete input. -/
theorem alert_threshold_table_witness :
    severityOf (check_metric_alerts "api"
        { avg_cpu := 85, avg_memory := 90, request_count := 100, error_count := 8 })
        "cpu_high" =
      (if (85 : ℚ) > 90 then some "high"
       else if (85 : ℚ) > 80 then some "medium" else Option.none) ∧
    severityOf (check_metric_alerts "api"
        { avg_cpu := 85, avg_memory := 90, request_count := 100, error_count := 8 })
        "memory_high" =
      (if (90 : ℚ) > 95 then some "high"
       else if (90 : ℚ) > 85 then some "medium" else Option.none) ∧
    severityOf (check_metric_alerts "api"
        { avg_cpu := 85, avg_memory := 90, request_count := 100, error_count := 8 })
        "error_rate_high" =
      (if (if (100 : ℕ) > 0 then (((8 : ℕ) : ℚ) / ((100 : ℕ) : ℚ)) * 100 else 0) > 10
       then some "critical"
       else if (if (100 : ℕ) > 0 then (((8 : ℕ) : ℚ) / ((100 : ℕ) : ℚ)) * 100 else 0) > 5
       then some "high" else Option.none) :=
  alert_threshold_table "api"
    { avg_cpu := 85, avg_memory := 90, request_count := 100, error_count := 8 }

/-- Witness for `empty_samples_raise_value_error` at a concrete input. -/
theorem empty_samples_raise_value_error_witness :
    emptyBatch.cpu_values = [] ∧
    process_metrics "worker" emptyBatch 3 =
      Except.error (PyError.valueError emptyReductionMsg) :=
  ⟨rfl, empty_samples_raise_value_error "worker" emptyBatch 3 rfl⟩

/-- Witness for `aggregation_pure_up_to_timestamp` at a concrete input. -/
theorem aggregation_pure_up_to_timestamp_witness :
    ((process_metrics "api" sampleBatch 2).map stripRun =
      (process_metrics "api" sampleBatch 3).map stripRun) ∧
    ((process_metrics "api" sampleBatch 2).map (fun pe => pe.2.map stripEffect) =
      (process_metrics "api" sampleBatch 2).map
        (fun pe => [("api", aggregatesOf pe.1)])) :=
  aggregation_pure_up_to_timestamp "api" sampleBatch 2 3

end AutoServe
